import Mathlib

/-
Verification of the runtime core of the rust-tui-template repository
(src/async/src/app.rs and src/async/src/utils.rs), as a shallow embedding.

The application loop (App::run) is modelled as a function over a finite
list of delivered events together with a list of per-iteration draw
results (true = the terminal draw succeeded).  The root component (Home
in the source, whose concrete file is not part of src/) is abstracted as
a record of its three operations, exactly as the loop uses them:
handle_events, dispatch, and the observable is_running flag.
-/

namespace TuiApp

/-- The component contract as `App::run` uses it on `self.home`:
`handle_events` maps an event to the next state and one action
(the loop wraps it in `Some`), `dispatch` applies one action and may
yield a follow-up action, and `is_running` is the observable flag the
loop checks at the end of each iteration. -/
structure Component (σ ε α : Type) where
  handle_events : σ → ε → σ × α
  dispatch : σ → α → σ × Option α
  is_running : σ → Bool

variable {σ ε α : Type}

/-- Outcome of one invocation of `App::run` on a finite event list.
`ok` is the `Ok(())` return after the loop breaks; `errorReturn` is the
`Err` case of the declared `Result` return type (the body never builds
it); `renderPanic` is the panic raised by `.draw(..).unwrap()`;
`blocked` means every delivered event was consumed and the loop is
suspended in `events.next().await`; `drainDiverged` means the inner
`while action.is_some()` loop exceeded the observation fuel. -/
inductive RunOutcome where
  | ok
  | errorReturn
  | renderPanic
  | blocked
  | drainDiverged
  deriving DecidableEq

/-- Observable trace of a run: how many times `terminal.draw` was
called, how many events were consumed, and how the run ended. -/
structure RunTrace where
  renders : Nat
  eventsConsumed : Nat
  outcome : RunOutcome
  deriving DecidableEq

/-- The inner drain loop of `App::run`:
`while action.is_some() { action = self.home.dispatch(action.unwrap()).await; }`,
started on the action produced by `handle_events` and run with explicit
fuel (the source imposes no bound). Returns the state after the chain
ends, or `none` if the fuel runs out first. -/
def drainFuel (c : Component σ ε α) : Nat → σ → α → Option σ
  | 0, _, _ => none
  | fuel + 1, s, a =>
    match c.dispatch s a with
    | (s1, none) => some s1
    | (s1, some a1) => drainFuel c fuel s1 a1

/-- The loop body of `App::run` over a finite list of delivered events.
Each iteration: draw (panicking if the draw result is `false`), await
the next event (blocking if the list is exhausted), translate it with
`handle_events`, drain the action chain, then and only then test
`is_running` and break when it is false, returning `Ok(())`. -/
def run (c : Component σ ε α) (fuel : Nat) (s : σ) (events : List ε) (draws : List Bool) :
    RunTrace :=
  match events with
  | [] =>
    if draws.headD true = false then ⟨1, 0, RunOutcome.renderPanic⟩
    else ⟨1, 0, RunOutcome.blocked⟩
  | e :: es =>
    if draws.headD true = false then ⟨1, 0, RunOutcome.renderPanic⟩
    else
      let p := c.handle_events s e
      match drainFuel c fuel p.1 p.2 with
      | none => ⟨1, 1, RunOutcome.drainDiverged⟩
      | some s2 =>
        if c.is_running s2 then
          let t := run c fuel s2 es draws.tail
          ⟨1 + t.renders, 1 + t.eventsConsumed, t.outcome⟩
        else ⟨1, 1, RunOutcome.ok⟩

/-- The drain loop terminates from state `s` on action `a`: some amount
of fuel suffices. -/
def drainTerminates (c : Component σ ε α) (s : σ) (a : α) : Prop :=
  ∃ fuel, (drainFuel c fuel s a).isSome = true

/-- The action chain from `s`, `a` is finite and ends in state `s2`:
one `dispatch` per constructor, stopping when `dispatch` yields no
follow-up action. -/
inductive DrainRel (c : Component σ ε α) : σ → α → σ → Prop where
  | done {s a s1} : c.dispatch s a = (s1, none) → DrainRel c s a s1
  | step {s a s1 a1 s2} : c.dispatch s a = (s1, some a1) → DrainRel c s1 a1 s2 →
      DrainRel c s a s2

/-- Boolean test that the component is still running after processing
every event of the list in order (each drain given `fuel`); `false`
also when some drain exhausts the fuel. -/
def processRunning (c : Component σ ε α) (fuel : Nat) : σ → List ε → Bool
  | _, [] => true
  | s, e :: es =>
    let p := c.handle_events s e
    match drainFuel c fuel p.1 p.2 with
    | none => false
    | some s2 => c.is_running s2 && processRunning c fuel s2 es

/-- A concrete component for sanity checks: state is the `is_running`
flag, every event quits (handle sets the flag to false), dispatch never
yields a follow-up action. -/
def quitComp : Component Bool Unit Unit where
  handle_events := fun _ _ => (false, ())
  dispatch := fun s _ => (s, none)
  is_running := fun s => s

/-- A component whose dispatch always yields a new action: the source
drain loop never exits on it. -/
def loopComp : Component Unit Unit Unit where
  handle_events := fun _ _ => ((), ())
  dispatch := fun _ _ => ((), some ())
  is_running := fun _ => true

/-- A component that never stops: every event maps to a no-op action
and dispatch yields nothing. -/
def idleComp : Component Bool Unit Unit where
  handle_events := fun s _ => (s, ())
  dispatch := fun s _ => (s, none)
  is_running := fun s => s

example : run quitComp 1 true [()] [] = ⟨1, 1, RunOutcome.ok⟩ := by decide

example : run idleComp 1 true [(), (), ()] [] = ⟨4, 3, RunOutcome.blocked⟩ := by decide

example : run idleComp 1 true [(), ()] [true, false] = ⟨2, 1, RunOutcome.renderPanic⟩ := by
  decide

example : drainFuel loopComp 5 () () = none := by decide

/-- Modelled from the spec: `Tui::new` lives in src/tui.rs, which is not
among the given source files.  Per the spec (sections 3 and 4.4), raw
mode and the alternate screen are entered exactly once at construction,
so a successful construction mutates the terminal and a failed one does
not.  The Boolean input says whether construction can succeed (raw mode
available); the Boolean output records whether the terminal was
mutated. -/
def tuiNew (rawModeAvailable : Bool) : Except String Unit × Bool :=
  if rawModeAvailable then (Except.ok (), true)
  else (Except.error "Unable to create TUI", false)

/-- Result of `App::new`: a constructed app, a returned `Err` (the `?`
on `home.init()`), or a panic (the `.unwrap()` on the Tui result). -/
inductive NewOutcome where
  | ok
  | err (msg : String)
  | panicked (msg : String)
  deriving DecidableEq

/-- Trace of `App::new`: its outcome plus whether the terminal was
mutated (raw mode or alternate screen entered) by the time it ends. -/
structure NewTrace where
  outcome : NewOutcome
  terminalEntered : Bool
  deriving DecidableEq

/-- `App::new(tick_rate)` from src/async/src/app.rs: first
`Tui::new().context("Unable to create TUI").unwrap()` — a failure here
panics with the context message — then `EventHandler::new` (infallible)
and `home.init()?`, whose failure is returned as `Err`. -/
def new (rawModeAvailable : Bool) (initRes : Except String Unit) : NewTrace :=
  match tuiNew rawModeAvailable with
  | (Except.error e, entered) => ⟨NewOutcome.panicked e, entered⟩
  | (Except.ok _, entered) =>
    match initRes with
    | Except.error e => ⟨NewOutcome.err e, entered⟩
    | Except.ok _ => ⟨NewOutcome.ok, entered⟩

example : new false (Except.ok ()) = ⟨NewOutcome.panicked "Unable to create TUI", false⟩ := by
  decide

example : new true (Except.error "init failed") = ⟨NewOutcome.err "init failed", true⟩ := by
  decide

end TuiApp

namespace TuiUtils

/-- One observable step of the installed panic hook
(src/async/src/utils.rs, `initialize_panic_handler`). -/
inductive PanicStep where
  | restoreTerminal
  | logError (msg : String)
  | renderDiagnostic
  | exitProcess (code : Nat)
  deriving DecidableEq

/-- The closure installed by `initialize_panic_handler`: build a
`TuiHandler` and call `exit()` on it (logging on either failure), then
run the better_panic handler on the panic info, then
`std::process::exit(EXIT_FAILURE)`.  The two `Except` inputs are the
outcomes of `TuiHandler::new()` and of `tui.exit()`. -/
def panicHook (tuiNewRes exitRes : Except String Unit) : List PanicStep :=
  (match tuiNewRes with
   | Except.ok _ =>
     match exitRes with
     | Except.ok _ => [PanicStep.restoreTerminal]
     | Except.error r => [PanicStep.restoreTerminal, PanicStep.logError r]
   | Except.error r => [PanicStep.logError r])
  ++ [PanicStep.renderDiagnostic, PanicStep.exitProcess 1]

/-- Steps belonging to the terminal-restoration phase of the hook. -/
def isRestorePhase : PanicStep → Bool
  | PanicStep.restoreTerminal => true
  | PanicStep.logError _ => true
  | _ => false

/-- The six log level filters of the log crate, as used in
`initialize_logging`. -/
inductive LevelFilter where
  | off
  | error
  | warn
  | info
  | debug
  | trace
  deriving DecidableEq

/-- Character-by-character lowercasing, modelling `val.to_lowercase()`. -/
def lowerStr (s : String) : String :=
  ⟨s.data.map Char.toLower⟩

/-- The default-level computation in `initialize_logging`
(src/async/src/utils.rs lines 68-78): read the `RUST_LOG` variable
(`none` = absent), lowercase it, and map the six recognized names to
their filters, everything else — and absence — to `Info`. -/
def defaultLevel (rustLog : Option String) : LevelFilter :=
  match rustLog with
  | none => LevelFilter.info
  | some val =>
    let v := lowerStr val
    if v = "off" then LevelFilter.off
    else if v = "error" then LevelFilter.error
    else if v = "warn" then LevelFilter.warn
    else if v = "info" then LevelFilter.info
    else if v = "debug" then LevelFilter.debug
    else if v = "trace" then LevelFilter.trace
    else LevelFilter.info

example : defaultLevel (some "DeBuG") = LevelFilter.debug := by decide

example : defaultLevel (some "verbose") = LevelFilter.info := by decide

/-- The two directories a `ProjectDirs` value can yield, modelling the
`directories::ProjectDirs` collaborator. -/
structure ProjDirs where
  dataLocalDir : String
  configLocalDir : String

/-- What a call to `get_data_dir` / `get_config_dir` does: return a
path, or print an error and `std::process::exit(EXIT_FAILURE)` (never
returning). -/
inductive DirResult where
  | path (p : String)
  | exitFailure (msg : String)
  deriving DecidableEq

/-- `get_data_dir` (src/async/src/utils.rs lines 29-40): the
`RATATUI_TEMPLATE_DATA` variable when set (verbatim, via
`PathBuf::from`), else the data_local_dir of the project directories,
else print an error and exit with a failure code. -/
def get_data_dir (envData : Option String) (projDirs : Option ProjDirs) : DirResult :=
  match envData with
  | some s => DirResult.path s
  | none =>
    match projDirs with
    | some pd => DirResult.path pd.dataLocalDir
    | none => DirResult.exitFailure "Unable to find data directory for ratatui-template"

/-- `get_config_dir` (src/async/src/utils.rs lines 42-53): same shape
with `RATATUI_TEMPLATE_CONFIG` and config_local_dir. -/
def get_config_dir (envConfig : Option String) (projDirs : Option ProjDirs) : DirResult :=
  match envConfig with
  | some s => DirResult.path s
  | none =>
    match projDirs with
    | some pd => DirResult.path pd.configLocalDir
    | none => DirResult.exitFailure "Unable to find data directory for ratatui-template"

end TuiUtils

namespace TuiApp

lemma drainFuel_some_drainRel (c : Component σ ε α) :
    ∀ (fuel : Nat) (s : σ) (a : α) (s2 : σ),
      drainFuel c fuel s a = some s2 → DrainRel c s a s2 := by
  intro fuel
  induction fuel with
  | zero => intro s a s2 h; simp [drainFuel] at h
  | succ n ih =>
    intro s a s2 h
    rw [drainFuel] at h
    rcases hd : c.dispatch s a with ⟨s1, a1⟩
    rw [hd] at h
    cases a1 with
    | none =>
      simp at h
      exact h ▸ DrainRel.done hd
    | some a1 =>
      exact DrainRel.step hd (ih s1 a1 s2 h)

lemma drainRel_drainFuel (c : Component σ ε α) {s : σ} {a : α} {s2 : σ}
    (h : DrainRel c s a s2) : ∃ fuel, drainFuel c fuel s a = some s2 := by
  induction h with
  | done hd => exact ⟨1, by rw [drainFuel, hd]⟩
  | step hd _ ih =>
    obtain ⟨n, hn⟩ := ih
    exact ⟨n + 1, by rw [drainFuel, hd]; exact hn⟩

/-- C5 (amended): the drain loop in `App::run` has no iteration bound;
it terminates from a given state and initial action exactly when the
chain of dispatch calls from there is finite, i.e. some dispatch in the
chain eventually yields no follow-up action. -/
theorem drain_terminates_iff_chain_finite (c : Component σ ε α) (s : σ) (a : α) :
    drainTerminates c s a ↔ ∃ s2, DrainRel c s a s2 := by
  constructor
  · rintro ⟨fuel, h⟩
    rcases hd : drainFuel c fuel s a with _ | s2
    · rw [hd] at h; simp at h
    · exact ⟨s2, drainFuel_some_drainRel c fuel s a s2 hd⟩
  · rintro ⟨s2, h⟩
    obtain ⟨fuel, hf⟩ := drainRel_drainFuel c h
    exact ⟨fuel, by rw [hf]; rfl⟩

/-- C5 (witness): the equivalence instantiated at a concrete component
and state. -/
theorem drain_terminates_iff_chain_finite_witness :
    drainTerminates quitComp false () ↔ ∃ s2, DrainRel quitComp false () s2 :=
  drain_terminates_iff_chain_finite quitComp false ()

/-- C5 (counterexample): for a component whose dispatch always yields a
new action, the drain loop never terminates, whatever the fuel — the
source code contains no bound K and no guard surfacing a fatal error. -/
theorem always_yielding_drain_diverges : ¬ drainTerminates loopComp () () := by
  rintro ⟨fuel, h⟩
  have hall : ∀ n, drainFuel loopComp n () () = none := by
    intro n
    induction n with
    | zero => rfl
    | succ m ih => rw [drainFuel]; exact ih
  rw [hall fuel] at h
  simp at h

/-- C1 (amended): when the terminal draw fails, `App::run` terminates
at once through the panic raised by `.draw(..).unwrap()`: the failure
is not swallowed, no further event is consumed, but it is also not
surfaced as the `Err` case of the declared `Result` return type. -/
theorem draw_failure_panics (c : Component σ ε α) (fuel : Nat) (s : σ)
    (events : List ε) (draws : List Bool) (h : draws.headD true = false) :
    run c fuel s events draws = ⟨1, 0, RunOutcome.renderPanic⟩ ∧
    (run c fuel s events draws).outcome ≠ RunOutcome.errorReturn := by
  have hrw : run c fuel s events draws = ⟨1, 0, RunOutcome.renderPanic⟩ := by
    cases events <;> simp only [run] <;> rw [h] <;> simp
  exact ⟨hrw, by rw [hrw]; simp⟩

/-- C1 (witness): the amended statement at a concrete run whose first
draw fails. -/
theorem draw_failure_panics_witness :
    ([false] : List Bool).headD true = false ∧
    (run idleComp 1 true [()] [false] = ⟨1, 0, RunOutcome.renderPanic⟩ ∧
      (run idleComp 1 true [()] [false]).outcome ≠ RunOutcome.errorReturn) :=
  ⟨by decide, draw_failure_panics idleComp 1 true [()] [false] (by decide)⟩

/-- C1 (counterexample): at a concrete run whose first draw fails, the
outcome is the unwrap panic, not an error returned from `App::run`. -/
theorem draw_failure_not_error_return :
    run idleComp 1 true [()] [false] = ⟨1, 0, RunOutcome.renderPanic⟩ ∧
    (run idleComp 1 true [()] [false]).outcome ≠ RunOutcome.errorReturn ∧
    (run idleComp 1 true [()] [false]).outcome ≠ RunOutcome.ok := by
  decide

/-- C2 (code bug): when Tui construction fails, `App::new` does not
return the prepared error value — the `.context("Unable to create
TUI").unwrap()` panics with that message instead, before any terminal
mutation. -/
theorem tui_failure_panics_in_new :
    new false (Except.ok ()) = ⟨NewOutcome.panicked "Unable to create TUI", false⟩ := by
  decide

/-- C3 (amended): every error actually returned by `App::new` comes
from the `home.init()?` call, and at that point Tui construction has
already succeeded, so the terminal has already been mutated (raw mode
and alternate screen entered); a Display construction failure panics
instead of returning an error. -/
theorem new_error_only_after_terminal_entered (avail : Bool)
    (initRes : Except String Unit) (e : String)
    (h : (new avail initRes).outcome = NewOutcome.err e) :
    (new avail initRes).terminalEntered = true := by
  cases avail with
  | false => simp [new, tuiNew] at h
  | true => cases initRes <;> simp [new, tuiNew]

/-- C3 (witness): the amended statement at a concrete failing init. -/
theorem new_error_only_after_terminal_entered_witness :
    (new true (Except.error "boom")).outcome = NewOutcome.err "boom" ∧
    (new true (Except.error "boom")).terminalEntered = true :=
  ⟨by decide, new_error_only_after_terminal_entered true (Except.error "boom") "boom" (by decide)⟩

/-- C3 (counterexample): a run of `App::new` in which the root
component initialization fails returns an error while the terminal has
already been mutated, contradicting the claim that no terminal
mutation has occurred when `App::new` returns an error. -/
theorem new_error_with_terminal_mutation :
    (new true (Except.error "init failed")).outcome = NewOutcome.err "init failed" ∧
    (new true (Except.error "init failed")).terminalEntered ≠ false := by
  decide

/-- C4 (amended): over a finite event list on which every drain
terminates and the component stays running, with all draws succeeding,
the loop calls render exactly n + 1 times for n events: one render
before each event wait plus the final render before the blocked wait
for event n + 1.  If instead some event ends the run, the count stops
at that event (see the counterexample). -/
theorem render_count_when_running (c : Component σ ε α) (fuel : Nat) (s : σ)
    (events : List ε) (h : processRunning c fuel s events = true) :
    run c fuel s events [] = ⟨events.length + 1, events.length, RunOutcome.blocked⟩ := by
  induction events generalizing s with
  | nil => simp [run]
  | cons e es ih =>
    rw [processRunning] at h
    rcases hd : drainFuel c fuel (c.handle_events s e).1 (c.handle_events s e).2 with _ | s2
    · rw [hd] at h; simp at h
    · rw [hd] at h
      simp only [Bool.and_eq_true] at h
      rw [run]
      simp only [List.headD, hd, h.1, if_true, List.tail]
      rw [ih s2 h.2]
      simp [List.length_cons]
      omega

/-- C4 (witness): the amended count at a concrete never-stopping
component and two events. -/
theorem render_count_when_running_witness :
    processRunning idleComp 1 true [(), ()] = true ∧
    run idleComp 1 true [(), ()] [] =
      ⟨[(), ()].length + 1, [(), ()].length, RunOutcome.blocked⟩ :=
  ⟨by decide, render_count_when_running idleComp 1 true [(), ()] (by decide)⟩

/-- C4 (counterexample): one delivered event whose dispatch round stops
the component: the loop renders once, not 1 + 1 times — the claim that
the render count always equals n plus one fails. -/
theorem render_count_not_events_plus_one :
    run quitComp 1 true [()] [] = ⟨1, 1, RunOutcome.ok⟩ ∧
    (run quitComp 1 true [()] []).renders ≠ [()].length + 1 := by
  decide

/-- C6: once the dispatch round of an event leaves `is_running` false,
the loop breaks immediately: no further render happens whatever events
remain, and `App::run` returns `Ok(())`. -/
theorem stop_condition_ends_loop (c : Component σ ε α) (fuel : Nat) (s s2 : σ)
    (e : ε) (es : List ε) (draws : List Bool)
    (hdraw : draws.headD true = true)
    (hdrain : drainFuel c fuel (c.handle_events s e).1 (c.handle_events s e).2 = some s2)
    (hstop : c.is_running s2 = false) :
    run c fuel s (e :: es) draws = ⟨1, 1, RunOutcome.ok⟩ := by
  simp only [run]
  rw [hdraw]
  simp [hdrain, hstop]

/-- C6 (witness): the stop behaviour at a concrete quitting component,
with further events pending that are never consumed. -/
theorem stop_condition_ends_loop_witness :
    ([] : List Bool).headD true = true ∧
    drainFuel quitComp 1 (quitComp.handle_events true ()).1 (quitComp.handle_events true ()).2 =
      some false ∧
    quitComp.is_running false = false ∧
    run quitComp 1 true [(), (), ()] [] = ⟨1, 1, RunOutcome.ok⟩ :=
  ⟨by decide, by decide, by decide,
    stop_condition_ends_loop quitComp 1 true false () [(), ()] [] (by decide) (by decide)
      (by decide)⟩

/-- C9: the loop tests `is_running` only at the end of an iteration, so
even when it is already false at entry the loop still renders once,
awaits and consumes one event, and fully drains its action chain before
observing the stop condition and returning `Ok(())`. -/
theorem first_iteration_before_stop_check (c : Component σ ε α) (fuel : Nat) (s s2 : σ)
    (e : ε) (es : List ε) (draws : List Bool)
    (_hnotrunning : c.is_running s = false)
    (hdraw : draws.headD true = true)
    (hdrain : drainFuel c fuel (c.handle_events s e).1 (c.handle_events s e).2 = some s2)
    (hstill : c.is_running s2 = false) :
    run c fuel s (e :: es) draws = ⟨1, 1, RunOutcome.ok⟩ := by
  simp only [run]
  rw [hdraw]
  simp [hdrain, hstill]

/-- C9 (witness): a concrete component that starts stopped still gets
one render, one event await and a full drain before the loop exits. -/
theorem first_iteration_before_stop_check_witness :
    idleComp.is_running false = false ∧
    run idleComp 1 false [()] [] = ⟨1, 1, RunOutcome.ok⟩ :=
  ⟨by decide,
    first_iteration_before_stop_check idleComp 1 false false () [] [] (by decide) (by decide)
      (by decide) (by decide)⟩

end TuiApp

namespace TuiUtils

/-- C7: the default-level computation of `initialize_logging` maps each
of the six recognized values of the log-verbosity variable to its level
filter, and maps absence as well as every unrecognized value to Info. -/
theorem default_level_mapping :
    defaultLevel none = LevelFilter.info ∧
    defaultLevel (some "off") = LevelFilter.off ∧
    defaultLevel (some "error") = LevelFilter.error ∧
    defaultLevel (some "warn") = LevelFilter.warn ∧
    defaultLevel (some "info") = LevelFilter.info ∧
    defaultLevel (some "debug") = LevelFilter.debug ∧
    defaultLevel (some "trace") = LevelFilter.trace ∧
    ∀ s : String, lowerStr s ∉ (["off", "error", "warn", "info", "debug", "trace"] : List String) →
      defaultLevel (some s) = LevelFilter.info := by
  refine ⟨by decide, by decide, by decide, by decide, by decide, by decide, by decide, ?_⟩
  intro s hs
  simp only [List.mem_cons, List.mem_singleton, not_or] at hs
  obtain ⟨h1, h2, h3, h4, h5, h6⟩ := hs
  simp [defaultLevel, h1, h2, h3, h4, h5, h6]

/-- C7 (witness): the mapping applied to a concrete unrecognized
value. -/
theorem default_level_mapping_witness :
    lowerStr "Verbose" ∉ (["off", "error", "warn", "info", "debug", "trace"] : List String) ∧
    defaultLevel (some "Verbose") = LevelFilter.info :=
  ⟨by decide, default_level_mapping.2.2.2.2.2.2.2 "Verbose" (by decide)⟩

/-- C8: on every panic, the installed hook first runs the
terminal-restoration phase (the TuiHandler construction and exit call,
with error logging), then renders the panic diagnostic, then exits the
process with the failure code 1; whenever the TuiHandler is obtained,
restoring the terminal is the very first step. -/
theorem panic_hook_order (t e : Except String Unit) :
    (panicHook t e).dropWhile isRestorePhase =
      [PanicStep.renderDiagnostic, PanicStep.exitProcess 1] ∧
    (panicHook t e).getLast? = some (PanicStep.exitProcess 1) ∧
    (panicHook (Except.ok ()) e).head? = some PanicStep.restoreTerminal := by
  rcases t with m | u <;> rcases e with m2 | u2 <;>
    simp [panicHook, isRestorePhase, List.dropWhile]

/-- C8 (witness): the hook ordering at concrete restoration results. -/
theorem panic_hook_order_witness :
    (panicHook (Except.ok ()) (Except.error "restore failed")).dropWhile isRestorePhase =
      [PanicStep.renderDiagnostic, PanicStep.exitProcess 1] ∧
    (panicHook (Except.ok ()) (Except.error "restore failed")).getLast? =
      some (PanicStep.exitProcess 1) ∧
    (panicHook (Except.ok ()) (Except.error "restore failed")).head? =
      some PanicStep.restoreTerminal :=
  panic_hook_order (Except.ok ()) (Except.error "restore failed")

/-- C10: with the override variable set, both directory helpers return
its value verbatim; with it unset and no resolvable project directory,
they do not return a path or an error value — the process prints an
error and exits with a failure code. -/
theorem dir_resolution (s : String) (projDirs : Option ProjDirs) :
    get_data_dir (some s) projDirs = DirResult.path s ∧
    get_config_dir (some s) projDirs = DirResult.path s ∧
    get_data_dir none none =
      DirResult.exitFailure "Unable to find data directory for ratatui-template" ∧
    get_config_dir none none =
      DirResult.exitFailure "Unable to find data directory for ratatui-template" :=
  ⟨rfl, rfl, rfl, rfl⟩

/-- C10 (witness): the directory contract at a concrete override. -/
theorem dir_resolution_witness :
    get_data_dir (some "/tmp/data") none = DirResult.path "/tmp/data" ∧
    get_config_dir (some "/tmp/data") none = DirResult.path "/tmp/data" ∧
    get_data_dir none none =
      DirResult.exitFailure "Unable to find data directory for ratatui-template" ∧
    get_config_dir none none =
      DirResult.exitFailure "Unable to find data directory for ratatui-template" :=
  dir_resolution "/tmp/data" none

end TuiUtils
